import Mathlib

/-!
Verification of the `cacheio` caching facade.

The repository provides a synchronous `Adapter` and an asynchronous
`AsyncAdapter` that normalize pluggable cache backends, plus caching
decorators (`cached`, `memoized`, `async_cached`, `async_memoized`) that
memoize method results behind those adapters, a global `Config` object
(`src/cacheio/_config.py`) and a `CacheFactory` (`src/cacheio/_cache_factory.py`).

Backends are opaque collaborators; we embed them as records of pure
functions (`hasFn`, `getFn`, ...) describing what each backend call
returns, and each adapter operation returns its result together with a
trace of the backend interactions it performed, so that statements such
as "the deferred function is invoked exactly once" or "`set` is never
called" are statements about the trace.  Python exceptions are embedded
with `Except`: a deferred function is a `Unit → Except String α` whose
`.error` case is a raised exception, and decorator-level errors
(`TypeError`, `AttributeError`) are the `PyError` type.

The adapter, decorator and helper modules (`_adapter.py`,
`_async_adapter.py`, `_cached.py`, `_utils.py`) are not present under
`src/`; only `_config.py` and `_cache_factory.py` are.  Definitions for
the missing modules are therefore modelled from the specification (their
doc comments say so explicitly); `Config` and `CacheFactory` are embedded
from the source.
-/

/-- A synchronous backend, embedded as the pure observations the adapter
makes of it: `hasFn` is what `backend.has(key)` returns and `getFn` what
`backend.get(key)` returns. -/
structure SyncBackend (α : Type) where
  hasFn : String → Bool
  getFn : String → α

/-- One observable interaction of the synchronous `Adapter` with its
backend or with the deferred function.  The third field of `set` is the
`timeout` keyword argument the sync backend receives. -/
inductive SyncEvent (α : Type) where
  | has (key : String)
  | get (key : String)
  | set (key : String) (value : α) (timeout : Option Int)
  | fnCall
  deriving DecidableEq

/-- An asynchronous backend: `existsFn` is what `backend.exists(key)`
returns, `incrementFn` what `backend.increment(key, amount)` returns. -/
structure AsyncBackend (α : Type) where
  existsFn : String → Bool
  getFn : String → α
  incrementFn : String → Int → Int

/-- One observable interaction of the `AsyncAdapter` with its backend or
with the deferred function.  The third field of `set` is the `ttl`
keyword argument the async backend receives. -/
inductive AsyncEvent (α : Type) where
  | exists_ (key : String)
  | get (key : String)
  | set (key : String) (value : α) (ttl : Option Int)
  | increment (key : String) (amount : Int)
  | fnCall
  deriving DecidableEq

/-- Modelled from the spec: `Adapter.get_or_set` / `memoize`
(`src/cacheio/_adapter.py` is absent from `src/`).  Spec section 4.1: if
`has(key)` is true, returns `get(key)` without invoking `fn`; otherwise
invokes `fn()`, stores the result (including `None`) via
`set(key, result, ttl)` (forwarded as the backend's `timeout`), and
returns it; `fn` exceptions propagate uncaught and nothing is cached on
failure. -/
def Adapter.get_or_set (b : SyncBackend α) (key : String)
    (fn : Unit → Except String α) (ttl : Option Int) :
    Except String α × List (SyncEvent α) :=
  if b.hasFn key then
    (.ok (b.getFn key), [.has key, .get key])
  else
    match fn () with
    | .ok v => (.ok v, [.has key, .fnCall, .set key v ttl])
    | .error e => (.error e, [.has key, .fnCall])

/-- Modelled from the spec: `Adapter.memoize` is the same operation as
`Adapter.get_or_set` (spec section 4.1 describes it once as `memoize`;
the tests call both names with the same contract). -/
def Adapter.memoize (b : SyncBackend α) (key : String)
    (fn : Unit → Except String α) (ttl : Option Int) :
    Except String α × List (SyncEvent α) :=
  Adapter.get_or_set b key fn ttl

/-- Modelled from the spec: `Adapter.set` (`src/cacheio/_adapter.py` is
absent from `src/`).  Forwards the ttl to the sync backend as its
`timeout` argument; the backend's return value is not modelled. -/
def Adapter.set (b : SyncBackend α) (key : String) (value : α)
    (ttl : Option Int) : List (SyncEvent α) :=
  [.set key value ttl]

/-- Modelled from the spec: `AsyncAdapter.get_or_set` / `memoize`
(`src/cacheio/_async_adapter.py` is absent from `src/`).  Spec section
4.2: same contract as the synchronous adapter with `exists` in place of
`has`, and the ttl forwarded to the async backend as `ttl`. -/
def AsyncAdapter.get_or_set (b : AsyncBackend α) (key : String)
    (fn : Unit → Except String α) (ttl : Option Int) :
    Except String α × List (AsyncEvent α) :=
  if b.existsFn key then
    (.ok (b.getFn key), [.exists_ key, .get key])
  else
    match fn () with
    | .ok v => (.ok v, [.exists_ key, .fnCall, .set key v ttl])
    | .error e => (.error e, [.exists_ key, .fnCall])

/-- Modelled from the spec: `AsyncAdapter.memoize` is the same operation
as `AsyncAdapter.get_or_set`. -/
def AsyncAdapter.memoize (b : AsyncBackend α) (key : String)
    (fn : Unit → Except String α) (ttl : Option Int) :
    Except String α × List (AsyncEvent α) :=
  AsyncAdapter.get_or_set b key fn ttl

/-- Modelled from the spec: `AsyncAdapter.set`
(`src/cacheio/_async_adapter.py` is absent from `src/`).  Forwards the
ttl to the async backend as its `ttl` argument. -/
def AsyncAdapter.set (b : AsyncBackend α) (key : String) (value : α)
    (ttl : Option Int) : List (AsyncEvent α) :=
  [.set key value ttl]

/-- Modelled from the spec: `AsyncAdapter.has`
(`src/cacheio/_async_adapter.py` is absent from `src/`).  Spec section
4.2: the async backend exposes `exists` instead of `has`, so `has`
delegates to it. -/
def AsyncAdapter.has (b : AsyncBackend α) (key : String) :
    Bool × List (AsyncEvent α) :=
  (b.existsFn key, [.exists_ key])

/-- Modelled from the spec: `AsyncAdapter.increment`
(`src/cacheio/_async_adapter.py` is absent from `src/`).  Delegates to
the backend's `increment` with a signed delta. -/
def AsyncAdapter.increment (b : AsyncBackend α) (key : String)
    (amount : Int) : Int × List (AsyncEvent α) :=
  (b.incrementFn key amount, [.increment key amount])

/-- Modelled from the spec: `AsyncAdapter.decrement`
(`src/cacheio/_async_adapter.py` is absent from `src/`).  Spec section
4.2: `increment` with a signed delta implements `decrement`. -/
def AsyncAdapter.decrement (b : AsyncBackend α) (key : String)
    (amount : Int) : Int × List (AsyncEvent α) :=
  AsyncAdapter.increment b key (-amount)

/-- How many times a sync trace invoked the deferred function. -/
def SyncEvent.fnCalls (tr : List (SyncEvent α)) : Nat :=
  tr.countP fun e => match e with | .fnCall => true | _ => false

/-- The `(key, value, timeout)` arguments of the backend `set` calls in a
sync trace, in order. -/
def SyncEvent.setCalls (tr : List (SyncEvent α)) :
    List (String × α × Option Int) :=
  tr.filterMap fun e => match e with
    | .set k v t => some (k, v, t)
    | _ => none

/-- The keys of the backend `get` calls in a sync trace, in order. -/
def SyncEvent.getCalls (tr : List (SyncEvent α)) : List String :=
  tr.filterMap fun e => match e with | .get k => some k | _ => none

/-- The keys of the backend `has` calls in a sync trace, in order. -/
def SyncEvent.hasCalls (tr : List (SyncEvent α)) : List String :=
  tr.filterMap fun e => match e with | .has k => some k | _ => none

/-- How many times an async trace invoked the deferred function. -/
def AsyncEvent.fnCalls (tr : List (AsyncEvent α)) : Nat :=
  tr.countP fun e => match e with | .fnCall => true | _ => false

/-- The `(key, value, ttl)` arguments of the backend `set` calls in an
async trace, in order. -/
def AsyncEvent.setCalls (tr : List (AsyncEvent α)) :
    List (String × α × Option Int) :=
  tr.filterMap fun e => match e with
    | .set k v t => some (k, v, t)
    | _ => none

/-- The keys of the backend `get` calls in an async trace, in order. -/
def AsyncEvent.getCalls (tr : List (AsyncEvent α)) : List String :=
  tr.filterMap fun e => match e with | .get k => some k | _ => none

/-- The keys of the backend `exists` calls in an async trace, in
order. -/
def AsyncEvent.existsCalls (tr : List (AsyncEvent α)) : List String :=
  tr.filterMap fun e => match e with | .exists_ k => some k | _ => none

/-- Claim C1: for every key, deferred function and ttl, if the backend
reports the key present (sync `has`, async `exists`) then
`memoize`/`get_or_set` returns the backend's `get(key)` value verbatim
without invoking the deferred function and without calling `set`; if the
key is absent, the deferred function is invoked exactly once, its result
is stored via a single backend `set(key, result, ttl)`, `get` is never
called, and the result is returned. -/
theorem get_or_set_hit_miss_contract (b : SyncBackend α)
    (ab : AsyncBackend α) (key : String) (fn : Unit → Except String α)
    (v : α) (ttl : Option Int) (hfn : fn () = .ok v) :
    (b.hasFn key = true →
      (Adapter.get_or_set b key fn ttl).1 = .ok (b.getFn key) ∧
      SyncEvent.fnCalls (Adapter.get_or_set b key fn ttl).2 = 0 ∧
      SyncEvent.setCalls (Adapter.get_or_set b key fn ttl).2 = [] ∧
      SyncEvent.getCalls (Adapter.get_or_set b key fn ttl).2 = [key]) ∧
    (b.hasFn key = false →
      (Adapter.get_or_set b key fn ttl).1 = .ok v ∧
      SyncEvent.fnCalls (Adapter.get_or_set b key fn ttl).2 = 1 ∧
      SyncEvent.setCalls (Adapter.get_or_set b key fn ttl).2
        = [(key, v, ttl)] ∧
      SyncEvent.getCalls (Adapter.get_or_set b key fn ttl).2 = []) ∧
    (ab.existsFn key = true →
      (AsyncAdapter.get_or_set ab key fn ttl).1 = .ok (ab.getFn key) ∧
      AsyncEvent.fnCalls (AsyncAdapter.get_or_set ab key fn ttl).2 = 0 ∧
      AsyncEvent.setCalls (AsyncAdapter.get_or_set ab key fn ttl).2 = [] ∧
      AsyncEvent.getCalls (AsyncAdapter.get_or_set ab key fn ttl).2
        = [key]) ∧
    (ab.existsFn key = false →
      (AsyncAdapter.get_or_set ab key fn ttl).1 = .ok v ∧
      AsyncEvent.fnCalls (AsyncAdapter.get_or_set ab key fn ttl).2 = 1 ∧
      AsyncEvent.setCalls (AsyncAdapter.get_or_set ab key fn ttl).2
        = [(key, v, ttl)] ∧
      AsyncEvent.getCalls (AsyncAdapter.get_or_set ab key fn ttl).2
        = []) := by
  refine ⟨fun h => ?_, fun h => ?_, fun h => ?_, fun h => ?_⟩ <;>
    simp [Adapter.get_or_set, AsyncAdapter.get_or_set, h, hfn,
      SyncEvent.fnCalls, SyncEvent.setCalls, SyncEvent.getCalls,
      AsyncEvent.fnCalls, AsyncEvent.setCalls, AsyncEvent.getCalls,
      List.countP, List.countP.go]

/-- A concrete sync backend on which every key is absent and `get`
returns 0. -/
def sbMiss : SyncBackend Int := ⟨fun _ => false, fun _ => 0⟩

/-- A concrete sync backend on which every key is present and `get`
returns 7. -/
def sbHit : SyncBackend Int := ⟨fun _ => true, fun _ => 7⟩

/-- A concrete async backend on which every key is absent; `increment`
adds the amount to 10. -/
def abMiss : AsyncBackend Int := ⟨fun _ => false, fun _ => 0, fun _ a => 10 + a⟩

/-- A concrete async backend on which every key is present and `get`
returns 7. -/
def abHit : AsyncBackend Int := ⟨fun _ => true, fun _ => 7, fun _ a => 10 + a⟩

theorem get_or_set_hit_miss_contract_witness :
    (Adapter.get_or_set sbMiss "k" (fun _ => .ok 5) (some 60)).1
        = .ok 5 ∧
    SyncEvent.setCalls (Adapter.get_or_set sbMiss "k" (fun _ => .ok 5)
        (some 60)).2 = [("k", 5, some 60)] ∧
    (AsyncAdapter.get_or_set abHit "k" (fun _ => .ok 5) (some 60)).1
        = .ok 7 ∧
    AsyncEvent.fnCalls (AsyncAdapter.get_or_set abHit "k"
        (fun _ => .ok 5) (some 60)).2 = 0 := by
  have h := get_or_set_hit_miss_contract sbMiss abHit "k"
    (fun _ => .ok (5 : Int)) 5 (some 60) rfl
  exact ⟨(h.2.1 rfl).1, (h.2.1 rfl).2.2.1, (h.2.2.1 rfl).1,
    (h.2.2.1 rfl).2.1⟩

/-- Claim C2: for every key and ttl, if the key is absent and the
deferred function raises, `memoize`/`get_or_set` (sync and async)
re-raises that exception unchanged and performs no backend `set`: no
cache entry is written on failure. -/
theorem get_or_set_propagates_exceptions (b : SyncBackend α)
    (ab : AsyncBackend α) (key : String) (fn : Unit → Except String α)
    (e : String) (ttl : Option Int) (hfn : fn () = .error e)
    (hmiss : b.hasFn key = false) (hamiss : ab.existsFn key = false) :
    (Adapter.get_or_set b key fn ttl).1 = .error e ∧
    SyncEvent.setCalls (Adapter.get_or_set b key fn ttl).2 = [] ∧
    (AsyncAdapter.get_or_set ab key fn ttl).1 = .error e ∧
    AsyncEvent.setCalls (AsyncAdapter.get_or_set ab key fn ttl).2
      = [] := by
  simp [Adapter.get_or_set, AsyncAdapter.get_or_set, hmiss, hamiss, hfn,
    SyncEvent.setCalls, AsyncEvent.setCalls]

theorem get_or_set_propagates_exceptions_witness :
    (Adapter.get_or_set sbMiss "k" (fun _ => .error "boom") none).1
        = .error "boom" ∧
    SyncEvent.setCalls (Adapter.get_or_set sbMiss "k"
        (fun _ => .error "boom") none).2 = [] ∧
    (AsyncAdapter.get_or_set abMiss "k" (fun _ => .error "boom")
        none).1 = .error "boom" ∧
    AsyncEvent.setCalls (AsyncAdapter.get_or_set abMiss "k"
        (fun _ => .error "boom") none).2 = [] :=
  get_or_set_propagates_exceptions sbMiss abMiss "k"
    (fun _ => .error "boom") "boom" none rfl rfl rfl

/-- Claim C7: `AsyncAdapter.has(key)` delegates to the backend's
`exists(key)`, and `AsyncAdapter.decrement(key, amount)` is the
backend's `increment` with the negated amount: it performs
`backend.increment(key, -amount)` and returns its result. -/
theorem async_has_and_decrement_delegate (ab : AsyncBackend α)
    (key : String) (amount : Int) :
    AsyncAdapter.has ab key = (ab.existsFn key, [.exists_ key]) ∧
    AsyncAdapter.decrement ab key amount
      = AsyncAdapter.increment ab key (-amount) ∧
    (AsyncAdapter.decrement ab key amount).1
      = ab.incrementFn key (-amount) ∧
    (AsyncAdapter.decrement ab key amount).2
      = [.increment key (-amount)] :=
  ⟨rfl, rfl, rfl, rfl⟩

/-- Claim C8: when ttl is `none`, the adapters' `set` and
`memoize`/`get_or_set` forward `none` to the backend (sync as the
`timeout` argument, async as the `ttl` argument) rather than
substituting a numeric default. -/
theorem set_forwards_none_ttl (b : SyncBackend α) (ab : AsyncBackend α)
    (key : String) (v : α) (fn : Unit → Except String α)
    (hfn : fn () = .ok v) (hmiss : b.hasFn key = false)
    (hamiss : ab.existsFn key = false) :
    Adapter.set b key v none = [.set key v none] ∧
    AsyncAdapter.set ab key v none = [.set key v none] ∧
    SyncEvent.setCalls (Adapter.get_or_set b key fn none).2
      = [(key, v, none)] ∧
    AsyncEvent.setCalls (AsyncAdapter.get_or_set ab key fn none).2
      = [(key, v, none)] := by
  simp [Adapter.set, AsyncAdapter.set, Adapter.get_or_set,
    AsyncAdapter.get_or_set, hmiss, hamiss, hfn, SyncEvent.setCalls,
    AsyncEvent.setCalls]

theorem set_forwards_none_ttl_witness :
    Adapter.set sbMiss "k" 5 none = [.set "k" 5 none] ∧
    SyncEvent.setCalls (Adapter.get_or_set sbMiss "k"
        (fun _ => .ok 5) none).2 = [("k", 5, none)] ∧
    AsyncEvent.setCalls (AsyncAdapter.get_or_set abMiss "k"
        (fun _ => .ok 5) none).2 = [("k", 5, none)] := by
  have h := set_forwards_none_ttl sbMiss abMiss "k" (5 : Int)
    (fun _ => .ok 5) rfl rfl rfl
  exact ⟨h.1, h.2.2.1, h.2.2.2⟩

/-- A decorator-level Python error: a `TypeError`, an `AttributeError`,
or an exception raised by the wrapped function. -/
inductive PyError where
  | typeError (msg : String)
  | attributeError (msg : String)
  | raised (tag : String)
  deriving DecidableEq

/-- A Python object, embedded as its attribute dictionary: a list of
named attribute values. -/
structure PyInstance (β : Type) where
  attrs : List (String × β)

/-- Python's `getattr` with a default of "absent": the value of the
first attribute with the given name, if any. -/
def getattr? (inst : PyInstance β) (name : String) : Option β :=
  (inst.attrs.find? fun p => p.1 == name).map fun p => p.2

/-- A decorated Python function: its `__module__`, `__qualname__`, its
declared positional parameter names (the first one being the instance
slot), and its body, which receives the instance and the call's
positional and keyword arguments and may raise. -/
structure PyFunc (σ β α : Type) where
  module : String
  qualname : String
  params : List String
  call : σ → List β → List (String × β) → Except String α

/-- Modelled from the spec: `ensure_decorated_class_method`
(`src/cacheio/_utils.py` is absent from `src/`).  Spec section 4.3(a):
validates that the wrapped function declares at least one positional
parameter (the instance); otherwise fails with a configuration error
signaling that the decorator is usable only on instance methods, naming
the decorator. -/
def ensure_decorated_class_method (params : List String)
    (decorator_name : String) : Except PyError Unit :=
  if params.isEmpty then
    .error (.typeError ("The \x27" ++ decorator_name
      ++ "\x27 decorator can only be used on methods of a class."))
  else
    .ok ()

/-- Modelled from the spec: `ensure_cache_adapter`
(`src/cacheio/_utils.py` is absent from `src/`).  Spec section 4.3(b):
resolves the adapter from the named attribute on the instance and fails
with an attribute error if it is absent; the message names the missing
attribute. -/
def ensure_cache_adapter (inst : PyInstance β) (cache_attr : String) :
    Except PyError β :=
  match getattr? inst cache_attr with
  | none => .error (.attributeError ("The provided cache attribute `"
      ++ cache_attr ++ "` does not exist."))
  | some b => .ok b

/-- Embeds an exception raised by the wrapped function into the
decorator-level error type, leaving it otherwise unchanged. -/
def liftRaised : Except String α → Except PyError α
  | .ok v => .ok v
  | .error tag => .error (.raised tag)

/-- Modelled from the spec: the cache key computation, spec section
4.3(c): either `key_fn(self, *args, **kwargs)`, or, if no key function
is given, the function's fully-qualified name (its `__module__` joined
with its `__qualname__` by a dot). -/
def computeKey (key_fn : Option (σ → List β → List (String × β) → String))
    (f : PyFunc σ β α) (self : σ) (args : List β)
    (kwargs : List (String × β)) : String :=
  match key_fn with
  | some kf => kf self args kwargs
  | none => f.module ++ "." ++ f.qualname

/-- Modelled from the spec: `invoke_cache_adapter`
(`src/cacheio/_adapter.py` is absent from `src/`).  Spec section
4.3(b)-(d): resolves the adapter from the named attribute on the
instance (failing with an attribute error if absent), computes the key,
and calls `adapter.memoize(key, deferred_call, ttl)` where the deferred
call invokes the original method with the original arguments. -/
def invoke_cache_adapter (self : PyInstance (SyncBackend α))
    (key_fn : Option (PyInstance (SyncBackend α) → List β
      → List (String × β) → String))
    (cache_attr : String) (f : PyFunc (PyInstance (SyncBackend α)) β α)
    (args : List β) (kwargs : List (String × β)) (ttl : Option Int) :
    Except PyError α × List (SyncEvent α) :=
  match ensure_cache_adapter self cache_attr with
  | .error e => (.error e, [])
  | .ok backend =>
    let r := Adapter.memoize backend
      (computeKey key_fn f self args kwargs)
      (fun _ => f.call self args kwargs) ttl
    (liftRaised r.1, r.2)

/-- Modelled from the spec: the asynchronous counterpart of
`invoke_cache_adapter` (`src/cacheio/_async_adapter.py` is absent from
`src/`).  Spec section 4.3 with the `AsyncAdapter` in place of the
synchronous one. -/
def async_invoke_cache_adapter (self : PyInstance (AsyncBackend α))
    (key_fn : Option (PyInstance (AsyncBackend α) → List β
      → List (String × β) → String))
    (cache_attr : String) (f : PyFunc (PyInstance (AsyncBackend α)) β α)
    (args : List β) (kwargs : List (String × β)) (ttl : Option Int) :
    Except PyError α × List (AsyncEvent α) :=
  match ensure_cache_adapter self cache_attr with
  | .error e => (.error e, [])
  | .ok backend =>
    let r := AsyncAdapter.memoize backend
      (computeKey key_fn f self args kwargs)
      (fun _ => f.call self args kwargs) ttl
    (liftRaised r.1, r.2)

/-- Modelled from the spec: the `cached` decorator
(`src/cacheio/_cached.py` / decorator module is absent from `src/`).
Spec section 4.3: decoration itself returns a wrapper (it never fails);
on each call the wrapper first validates the wrapped function declares
at least one positional parameter, then binds through
`invoke_cache_adapter`.  `memoized` is the same with a mandatory key
function. -/
def cached (key_fn : Option (PyInstance (SyncBackend α) → List β
      → List (String × β) → String))
    (ttl : Option Int) (cache_attr : String)
    (f : PyFunc (PyInstance (SyncBackend α)) β α) :
    PyInstance (SyncBackend α) → List β → List (String × β)
      → Except PyError α × List (SyncEvent α) :=
  fun self args kwargs =>
    match ensure_decorated_class_method f.params "cached" with
    | .error e => (.error e, [])
    | .ok _ => invoke_cache_adapter self key_fn cache_attr f args kwargs ttl

/-- Modelled from the spec: the `async_cached` decorator (decorator
module absent from `src/`); identical to `cached` with the asynchronous
adapter, and its configuration error names `async_cached`. -/
def async_cached (key_fn : Option (PyInstance (AsyncBackend α) → List β
      → List (String × β) → String))
    (ttl : Option Int) (cache_attr : String)
    (f : PyFunc (PyInstance (AsyncBackend α)) β α) :
    PyInstance (AsyncBackend α) → List β → List (String × β)
      → Except PyError α × List (AsyncEvent α) :=
  fun self args kwargs =>
    match ensure_decorated_class_method f.params "async_cached" with
    | .error e => (.error e, [])
    | .ok _ =>
      async_invoke_cache_adapter self key_fn cache_attr f args kwargs ttl

/-- `liftRaised` never produces an `AttributeError`. -/
theorem liftRaised_ne_attributeError (x : Except String α) (m : String) :
    liftRaised x ≠ .error (.attributeError m) := by
  cases x <;> simp [liftRaised]

/-- Whatever the backend reports and whatever the deferred function
does, a sync `get_or_set` consults `has` exactly once, on the requested
key. -/
theorem get_or_set_hasCalls (b : SyncBackend α) (key : String)
    (fn : Unit → Except String α) (ttl : Option Int) :
    SyncEvent.hasCalls (Adapter.get_or_set b key fn ttl).2 = [key] := by
  by_cases hk : b.hasFn key <;>
    simp [Adapter.get_or_set, hk, SyncEvent.hasCalls]
  cases fn () <;> simp [SyncEvent.hasCalls]

/-- Whatever the backend reports and whatever the deferred function
does, an async `get_or_set` consults `exists` exactly once, on the
requested key. -/
theorem async_get_or_set_existsCalls (b : AsyncBackend α) (key : String)
    (fn : Unit → Except String α) (ttl : Option Int) :
    AsyncEvent.existsCalls (AsyncAdapter.get_or_set b key fn ttl).2
      = [key] := by
  by_cases hk : b.existsFn key <;>
    simp [AsyncAdapter.get_or_set, hk, AsyncEvent.existsCalls]
  cases fn () <;> simp [AsyncEvent.existsCalls]

/-- Claim C5: the caching decorators' validation fails with a
`TypeError` naming the decorator and stating it can only be used on
methods of a class exactly when the wrapped function declares no
positional parameter; any function declaring at least one positional
parameter passes validation and proceeds to the binding step.  The
failure is a property of calls, not of decoration: in this model
`cached`/`async_cached` always return a wrapper, and the error is the
value the wrapper returns on every call. -/
theorem decorator_validation_iff
    (key_fn : Option (PyInstance (SyncBackend α) → List β
      → List (String × β) → String))
    (akey_fn : Option (PyInstance (AsyncBackend α) → List β
      → List (String × β) → String))
    (ttl : Option Int) (cache_attr : String)
    (f : PyFunc (PyInstance (SyncBackend α)) β α)
    (g : PyFunc (PyInstance (AsyncBackend α)) β α)
    (self : PyInstance (SyncBackend α))
    (aself : PyInstance (AsyncBackend α))
    (args : List β) (kwargs : List (String × β)) :
    (f.params = [] →
      cached key_fn ttl cache_attr f self args kwargs
        = (.error (.typeError ("The \x27cached\x27 decorator can only "
            ++ "be used on methods of a class.")), [])) ∧
    (f.params ≠ [] →
      cached key_fn ttl cache_attr f self args kwargs
        = invoke_cache_adapter self key_fn cache_attr f args kwargs
            ttl) ∧
    (g.params = [] →
      async_cached akey_fn ttl cache_attr g aself args kwargs
        = (.error (.typeError ("The \x27async_cached\x27 decorator can "
            ++ "only be used on methods of a class.")), [])) ∧
    (g.params ≠ [] →
      async_cached akey_fn ttl cache_attr g aself args kwargs
        = async_invoke_cache_adapter aself akey_fn cache_attr g args
            kwargs ttl) := by
  refine ⟨fun h => ?_, fun h => ?_, fun h => ?_, fun h => ?_⟩
  · simp [cached, ensure_decorated_class_method, h]
  · rcases hp : f.params with _ | ⟨p, ps⟩
    · exact absurd hp h
    · simp [cached, ensure_decorated_class_method, hp]
  · simp [async_cached, ensure_decorated_class_method, h]
  · rcases hp : g.params with _ | ⟨p, ps⟩
    · exact absurd hp h
    · simp [async_cached, ensure_decorated_class_method, hp]

/-- A decorated sync method with no declared positional parameter, as in
the standalone-function tests. -/
def fNoParams : PyFunc (PyInstance (SyncBackend Int)) Int Int :=
  ⟨"mod", "standalone_function", [], fun _ _ _ => .ok 42⟩

/-- A decorated async method with no declared positional parameter. -/
def gNoParams : PyFunc (PyInstance (AsyncBackend Int)) Int Int :=
  ⟨"mod", "standalone", [], fun _ _ _ => .ok 123⟩

/-- A decorated sync method declaring an instance parameter. -/
def fDummy : PyFunc (PyInstance (SyncBackend Int)) Int Int :=
  ⟨"mod", "MyClass.my_method", ["self"], fun _ _ _ => .ok 0⟩

/-- A decorated async method declaring an instance parameter. -/
def gDummy : PyFunc (PyInstance (AsyncBackend Int)) Int Int :=
  ⟨"mod", "MyAsyncClass.my_async_method", ["self"], fun _ _ _ => .ok 0⟩

/-- A concrete instance carrying a sync backend under `_cache`. -/
def inst1 : PyInstance (SyncBackend Int) := ⟨[("_cache", sbMiss)]⟩

/-- A concrete instance with the same `_cache` backend as `inst1` plus
one extra attribute, so that it is a different instance. -/
def inst2 : PyInstance (SyncBackend Int) :=
  ⟨[("_cache", sbMiss), ("other", sbMiss)]⟩

/-- A concrete instance carrying an async backend under `_cache`. -/
def ainst1 : PyInstance (AsyncBackend Int) := ⟨[("_cache", abMiss)]⟩

/-- A concrete instance with no attributes at all. -/
def instEmpty : PyInstance (SyncBackend Int) := ⟨[]⟩

/-- A concrete attribute-less instance for the async side. -/
def ainstEmpty : PyInstance (AsyncBackend Int) := ⟨[]⟩

theorem decorator_validation_iff_witness :
    cached none none "_cache" fNoParams instEmpty [] []
      = (.error (.typeError ("The \x27cached\x27 decorator can only "
          ++ "be used on methods of a class.")), []) ∧
    cached none none "_cache" fDummy inst1 [] []
      = invoke_cache_adapter inst1 none "_cache" fDummy [] [] none := by
  have h1 := decorator_validation_iff (α := Int) (β := Int) none none
    none "_cache" fNoParams gNoParams instEmpty ainstEmpty [] []
  have h2 := decorator_validation_iff (α := Int) (β := Int) none none
    none "_cache" fDummy gDummy inst1 ainst1 [] []
  exact ⟨h1.1 rfl, h2.2.1 (by simp [fDummy])⟩

/-- Claim C6: invoking a decorated method's binding helper
(`invoke_cache_adapter`, sync or async) raises an `AttributeError`
whose message names the missing attribute when the instance has no
attribute of the configured cache-attribute name, and proceeds without
any `AttributeError` when the attribute exists. -/
theorem invoke_cache_adapter_cache_attr_resolution
    (self : PyInstance (SyncBackend α))
    (aself : PyInstance (AsyncBackend α))
    (key_fn : Option (PyInstance (SyncBackend α) → List β
      → List (String × β) → String))
    (akey_fn : Option (PyInstance (AsyncBackend α) → List β
      → List (String × β) → String))
    (cache_attr : String) (f : PyFunc (PyInstance (SyncBackend α)) β α)
    (g : PyFunc (PyInstance (AsyncBackend α)) β α)
    (args : List β) (kwargs : List (String × β)) (ttl : Option Int) :
    (getattr? self cache_attr = none →
      invoke_cache_adapter self key_fn cache_attr f args kwargs ttl
        = (.error (.attributeError ("The provided cache attribute `"
            ++ cache_attr ++ "` does not exist.")), [])) ∧
    (∀ b, getattr? self cache_attr = some b → ∀ m,
      (invoke_cache_adapter self key_fn cache_attr f args kwargs ttl).1
        ≠ .error (.attributeError m)) ∧
    (getattr? aself cache_attr = none →
      async_invoke_cache_adapter aself akey_fn cache_attr g args kwargs
          ttl
        = (.error (.attributeError ("The provided cache attribute `"
            ++ cache_attr ++ "` does not exist.")), [])) ∧
    (∀ ab, getattr? aself cache_attr = some ab → ∀ m,
      (async_invoke_cache_adapter aself akey_fn cache_attr g args
          kwargs ttl).1
        ≠ .error (.attributeError m)) := by
  refine ⟨fun h => ?_, fun b hb m => ?_, fun h => ?_,
    fun ab hab m => ?_⟩
  · simp [invoke_cache_adapter, ensure_cache_adapter, h]
  · simp only [invoke_cache_adapter, ensure_cache_adapter, hb]
    exact liftRaised_ne_attributeError _ m
  · simp [async_invoke_cache_adapter, ensure_cache_adapter, h]
  · simp only [async_invoke_cache_adapter, ensure_cache_adapter, hab]
    exact liftRaised_ne_attributeError _ m

theorem invoke_cache_adapter_cache_attr_resolution_witness :
    invoke_cache_adapter instEmpty none "_cache" fDummy [] [] none
      = (.error (.attributeError
          "The provided cache attribute `_cache` does not exist."), [])
      ∧
    (invoke_cache_adapter inst1 none "_cache" fDummy [] [] none).1
      ≠ .error (.attributeError "any message") := by
  have h1 := invoke_cache_adapter_cache_attr_resolution (α := Int)
    (β := Int) instEmpty ainstEmpty none none "_cache" fDummy gDummy
    [] [] none
  have h2 := invoke_cache_adapter_cache_attr_resolution (α := Int)
    (β := Int) inst1 ainst1 none none "_cache" fDummy gDummy [] [] none
  exact ⟨h1.1 rfl, h2.2.1 sbMiss rfl "any message"⟩

/-- A key function that can tell which instance it received: it renders
the number of attributes of the instance it is given. -/
def selfSensitiveKeyFn :
    PyInstance (SyncBackend Int) → List Int → List (String × Int)
      → String :=
  fun s _ _ => toString s.attrs.length

/-- Claim C3, as stated, is false: it says the key function receives
the call's arguments excluding the bound instance, so the produced key
could depend only on those arguments.  Here two calls of the same
decorated method with the same key function, the same positional
arguments `[3]` and the same (empty) keyword arguments, on two
instances that differ only in an extra attribute, send different keys
to the backend — because the key function in fact receives the bound
instance as its first argument. -/
theorem cached_key_excludes_instance_counterexample :
    SyncEvent.hasCalls ((cached (some selfSensitiveKeyFn) none "_cache"
        fDummy inst1 [3] []).2) = ["1"] ∧
    SyncEvent.hasCalls ((cached (some selfSensitiveKeyFn) none "_cache"
        fDummy inst2 [3] []).2) = ["2"] ∧
    ("1" : String) ≠ "2" := by
  refine ⟨by decide, by decide, by decide⟩

/-- Claim C3 amended: for every call to a method decorated with a
user-supplied key function, the key function receives the bound
instance as its first argument followed by the same positional and
keyword arguments as the wrapped call, and the produced cache key — the
one sent to the backend — equals that application of the key
function. -/
theorem cached_key_fn_receives_instance_and_args
    (kf : PyInstance (SyncBackend α) → List β → List (String × β)
      → String)
    (akf : PyInstance (AsyncBackend α) → List β → List (String × β)
      → String)
    (ttl : Option Int) (cache_attr : String)
    (f : PyFunc (PyInstance (SyncBackend α)) β α)
    (g : PyFunc (PyInstance (AsyncBackend α)) β α)
    (self : PyInstance (SyncBackend α))
    (aself : PyInstance (AsyncBackend α))
    (args : List β) (kwargs : List (String × β))
    (b : SyncBackend α) (ab : AsyncBackend α)
    (hb : getattr? self cache_attr = some b)
    (hab : getattr? aself cache_attr = some ab)
    (hf : f.params ≠ []) (hg : g.params ≠ []) :
    SyncEvent.hasCalls ((cached (some kf) ttl cache_attr f self args
        kwargs).2) = [kf self args kwargs] ∧
    AsyncEvent.existsCalls ((async_cached (some akf) ttl cache_attr g
        aself args kwargs).2) = [akf aself args kwargs] := by
  constructor
  · rcases hp : f.params with _ | ⟨p, ps⟩
    · exact absurd hp hf
    · simp [cached, ensure_decorated_class_method, hp,
        invoke_cache_adapter, ensure_cache_adapter, hb, Adapter.memoize,
        computeKey, get_or_set_hasCalls]
  · rcases hp : g.params with _ | ⟨p, ps⟩
    · exact absurd hp hg
    · simp [async_cached, ensure_decorated_class_method, hp,
        async_invoke_cache_adapter, ensure_cache_adapter, hab,
        AsyncAdapter.memoize, computeKey, async_get_or_set_existsCalls]

theorem cached_key_fn_receives_instance_and_args_witness :
    SyncEvent.hasCalls ((cached (some selfSensitiveKeyFn) (some 60)
        "_cache" fDummy inst1 [7] []).2) = ["1"] ∧
    AsyncEvent.existsCalls ((async_cached
        (some fun _ args _ => "key_" ++ toString args.length) (some 60)
        "_cache" gDummy ainst1 [7] []).2) = ["key_1"] := by
  have h := cached_key_fn_receives_instance_and_args
    selfSensitiveKeyFn (fun _ args _ => "key_" ++ toString args.length)
    (some 60) "_cache" fDummy gDummy inst1 ainst1 [7] []
    sbMiss abMiss rfl rfl (by simp [fDummy]) (by simp [gDummy])
  refine ⟨?_, ?_⟩
  · rw [h.1]; decide
  · rw [h.2]; decide

/-- Claim C4: for every call to a method decorated with
`cached`/`async_cached` without a key function, the cache key passed to
the adapter equals the decorated method's fully-qualified name — its
module name joined with its qualified name by a dot — independent of
the call's arguments and of the `cache_attr` setting. -/
theorem cached_default_key_is_fully_qualified_name
    (ttl : Option Int) (cache_attr : String)
    (f : PyFunc (PyInstance (SyncBackend α)) β α)
    (g : PyFunc (PyInstance (AsyncBackend α)) β α)
    (self : PyInstance (SyncBackend α))
    (aself : PyInstance (AsyncBackend α))
    (args : List β) (kwargs : List (String × β))
    (b : SyncBackend α) (ab : AsyncBackend α)
    (hb : getattr? self cache_attr = some b)
    (hab : getattr? aself cache_attr = some ab)
    (hf : f.params ≠ []) (hg : g.params ≠ []) :
    SyncEvent.hasCalls ((cached none ttl cache_attr f self args
        kwargs).2) = [f.module ++ "." ++ f.qualname] ∧
    AsyncEvent.existsCalls ((async_cached none ttl cache_attr g aself
        args kwargs).2) = [g.module ++ "." ++ g.qualname] := by
  constructor
  · rcases hp : f.params with _ | ⟨p, ps⟩
    · exact absurd hp hf
    · simp [cached, ensure_decorated_class_method, hp,
        invoke_cache_adapter, ensure_cache_adapter, hb, Adapter.memoize,
        computeKey, get_or_set_hasCalls]
  · rcases hp : g.params with _ | ⟨p, ps⟩
    · exact absurd hp hg
    · simp [async_cached, ensure_decorated_class_method, hp,
        async_invoke_cache_adapter, ensure_cache_adapter, hab,
        AsyncAdapter.memoize, computeKey, async_get_or_set_existsCalls]

theorem cached_default_key_is_fully_qualified_name_witness :
    SyncEvent.hasCalls ((cached none (some 60) "_cache" fDummy inst1
        [5, 10] []).2) = ["mod.MyClass.my_method"] ∧
    AsyncEvent.existsCalls ((async_cached none (some 60) "_cache"
        gDummy ainst1 [1, 2] []).2)
      = ["mod.MyAsyncClass.my_async_method"] := by
  have h := cached_default_key_is_fully_qualified_name (some 60)
    "_cache" fDummy gDummy inst1 ainst1 [5, 10] [] sbMiss abMiss rfl
    rfl (by simp [fDummy]) (by simp [gDummy])
  have h2 := cached_default_key_is_fully_qualified_name (some 60)
    "_cache" fDummy gDummy inst1 ainst1 [1, 2] [] sbMiss abMiss rfl
    rfl (by simp [fDummy]) (by simp [gDummy])
  exact ⟨h.1, h2.2⟩

/-- The global configuration object of `src/cacheio/_config.py`: its
`__slots__` are `default_ttl` and `default_threshold`, both integers,
initialised to 300 and 500. -/
structure Config where
  default_ttl : Int
  default_threshold : Int

/-- Python's `hasattr(self, attr)` on a `Config`: with `__slots__` and
both slots assigned in `__init__`, exactly the two slot names exist. -/
def Config.hasattr (c : Config) (attr : String) : Bool :=
  attr == "default_ttl" || attr == "default_threshold"

/-- Python's `getattr(self, attr)` on a `Config`, for the existing
attributes. -/
def Config.getattrVal (c : Config) (attr : String) : Int :=
  if attr == "default_ttl" then c.default_ttl else c.default_threshold

/-- `Config.get` from `src/cacheio/_config.py` lines 42-61: first, if
`hasattr(self, attr)` fails, raise
`AttributeError(f"Unknown configuration attribute: '{attr}'")`; then,
if the override is not `None`, return it; otherwise return the stored
attribute value. -/
def Config.get (c : Config) (attr : String) (override : Option Int) :
    Except String Int :=
  if ¬ c.hasattr attr then
    .error ("Unknown configuration attribute: \x27" ++ attr ++ "\x27")
  else
    match override with
    | some v => .ok v
    | none => .ok (c.getattrVal attr)

/-- The `Config()` built at module import: `default_ttl = 300`,
`default_threshold = 500`. -/
def Config.init : Config := ⟨300, 500⟩

/-- Claim C9: `Config.get(attr, override)` raises an `AttributeError`
naming the attribute whenever `attr` is not an existing configuration
attribute, even if a non-`None` override is supplied; for an existing
attribute it returns the override whenever the override is not `None`,
and the stored attribute value only when the override is `None`. -/
theorem config_get_contract (c : Config) (attr : String)
    (override : Option Int) :
    (c.hasattr attr = false →
      Config.get c attr override
        = .error ("Unknown configuration attribute: \x27" ++ attr
            ++ "\x27")) ∧
    (c.hasattr attr = true → ∀ v, override = some v →
      Config.get c attr override = .ok v) ∧
    (c.hasattr attr = true → override = none →
      Config.get c attr override = .ok (c.getattrVal attr)) := by
  refine ⟨fun h => ?_, fun h v hv => ?_, fun h hv => ?_⟩
  · simp [Config.get, h]
  · simp [Config.get, h, hv]
  · simp [Config.get, h, hv]

theorem config_get_contract_witness :
    Config.get Config.init "unknown" (some 123)
      = .error "Unknown configuration attribute: \x27unknown\x27" ∧
    Config.get Config.init "default_ttl" (some 123) = .ok 123 ∧
    Config.get Config.init "default_threshold" none = .ok 500 := by
  have h1 := config_get_contract Config.init "unknown" (some 123)
  have h2 := config_get_contract Config.init "default_ttl" (some 123)
  have h3 := config_get_contract Config.init "default_threshold" none
  exact ⟨h1.1 (by decide), h2.2.1 (by decide) 123 rfl,
    h3.2.2 (by decide) rfl⟩

/-- The `namespace` argument the factory's Redis constructors accept:
`None`, a string, or a zero-argument callable returning a string. -/
inductive NamespaceArg where
  | noneNs
  | strNs (s : String)
  | callableNs (f : Unit → String)

/-- The keyword arguments `CacheFactory.redis_cache` hands to
`cachelib.RedisCache` (`src/cacheio/_cache_factory.py` lines 136-150);
the last field is the `key_prefix` keyword. -/
structure SyncRedisCacheArgs where
  host : String
  port : Int
  password : Option String
  db : Int
  default_timeout : Int
  key_prefix : NamespaceArg

/-- The keyword arguments `CacheFactory.async_redis_cache` hands to
`aiocache.Cache` (`src/cacheio/_cache_factory.py` lines 222-240); the
last field is the `namespace` keyword, after the factory's own
resolution of a callable. -/
structure AsyncRedisCacheArgs where
  endpoint : String
  port : Int
  password : Option String
  db : Int
  timeout : Int
  namespace_ : NamespaceArg

/-- `CacheFactory.redis_cache` from `src/cacheio/_cache_factory.py`
lines 95-150: resolves `ttl` through `config.get("default_ttl", ttl)`
and passes `namespace` through to the backend as `key_prefix`
unchanged — if it is a callable, it is not invoked (the doc comment in
the source says so explicitly).  Alongside the constructed backend
arguments the embedding returns how many times the factory invoked the
namespace callable. -/
def CacheFactory.redis_cache (cfg : Config) (ttl : Option Int)
    (host : String) (port : Int) (password : Option String) (db : Int)
    (namespace_ : NamespaceArg) :
    Except String SyncRedisCacheArgs × Nat :=
  match Config.get cfg "default_ttl" ttl with
  | .error e => (.error e, 0)
  | .ok t => (.ok ⟨host, port, password, db, t, namespace_⟩, 0)

/-- `CacheFactory.async_redis_cache` from
`src/cacheio/_cache_factory.py` lines 178-240: resolves `ttl` through
`config.get("default_ttl", ttl)`, and if `namespace` is a callable,
invokes it (once) and passes the resulting string to the backend as
`namespace`; otherwise passes the argument through.  The second
component counts the factory's invocations of the namespace
callable. -/
def CacheFactory.async_redis_cache (cfg : Config) (ttl : Option Int)
    (host : String) (port : Int) (password : Option String) (db : Int)
    (namespace_ : NamespaceArg) :
    Except String AsyncRedisCacheArgs × Nat :=
  match Config.get cfg "default_ttl" ttl with
  | .error e => (.error e, 0)
  | .ok t =>
    match namespace_ with
    | .callableNs f => (.ok ⟨host, port, password, db, t, .strNs (f ())⟩, 1)
    | ns => (.ok ⟨host, port, password, db, t, ns⟩, 0)

/-- Claim C10: when the namespace argument is a callable,
`CacheFactory.async_redis_cache` invokes it exactly once and passes the
resulting string to the backend as the `namespace`, whereas
`CacheFactory.redis_cache` passes the callable itself through to the
backend as `key_prefix` without invoking it. -/
theorem factory_namespace_callable_handling (cfg : Config)
    (ttl : Option Int) (host : String) (port : Int)
    (password : Option String) (db : Int) (f : Unit → String) :
    (∃ t, CacheFactory.async_redis_cache cfg ttl host port password db
        (.callableNs f)
      = (.ok ⟨host, port, password, db, t, .strNs (f ())⟩, 1)) ∧
    (∃ t, CacheFactory.redis_cache cfg ttl host port password db
        (.callableNs f)
      = (.ok ⟨host, port, password, db, t, .callableNs f⟩, 0)) := by
  cases ttl <;>
    exact ⟨⟨_, rfl⟩, ⟨_, rfl⟩⟩
